import Mathlib

/-!
Shallow embedding of `cartesian_controller_base.hpp` from the
`cartesian_controllers` repository, together with proofs about the
per-cycle control operations, the initialization routine, the
actuation-mode-specific command writers, and the wrench re-expression
(`displayInBaseLink`).

The repository code is a C++ class template `CartesianControllerBase`
whose per-cycle operations (`starting`, `stopping`, `update`,
`computeJointControlCmds`, `writeJointControlCmds`, `displayInBaseLink`)
and one-time `init` are embedded here as pure Lean functions over an
explicit controller state.  External collaborators (ROS parameter
server, URDF/KDL parsing, the forward-dynamics solver and spatial PID
controller whose implementations live outside this header) are
modelled as explicit oracle fields or, where the specification gives
their contract, as functions modelled from the specification.

Machine reals (`double`) are embedded as rationals `ℚ`; the claims
under study are exact algebraic/structural statements, not
floating-point rounding statements.
-/

set_option maxHeartbeats 1000000

namespace cartesian_controller_base

/-! ### KDL geometry types

Embedding of the fragment of the external KDL library used at
`displayInBaseLink` (KDL::Vector, KDL::Rotation, KDL::Frame,
KDL::Wrench, Frame * Wrench, Frame::Inverse).  The wrench transform
law is the one stated by the specification:
`f' = R · f`, `t' = R · t + p × f'`. -/

/-- KDL::Vector with rational coordinates. -/
structure KDLVector where
  x : ℚ
  y : ℚ
  z : ℚ
deriving DecidableEq

/-- KDL::Rotation: a 3×3 matrix stored row-major (`rIJ` = row I, column J). -/
structure KDLRotation where
  r00 : ℚ
  r01 : ℚ
  r02 : ℚ
  r10 : ℚ
  r11 : ℚ
  r12 : ℚ
  r20 : ℚ
  r21 : ℚ
  r22 : ℚ
deriving DecidableEq

/-- Matrix–vector product (KDL `Rotation * Vector`). -/
def KDLRotation.apply (R : KDLRotation) (v : KDLVector) : KDLVector :=
  ⟨R.r00 * v.x + R.r01 * v.y + R.r02 * v.z,
   R.r10 * v.x + R.r11 * v.y + R.r12 * v.z,
   R.r20 * v.x + R.r21 * v.y + R.r22 * v.z⟩

/-- Matrix product (KDL `Rotation * Rotation`). -/
def KDLRotation.mul (A B : KDLRotation) : KDLRotation :=
  ⟨A.r00 * B.r00 + A.r01 * B.r10 + A.r02 * B.r20,
   A.r00 * B.r01 + A.r01 * B.r11 + A.r02 * B.r21,
   A.r00 * B.r02 + A.r01 * B.r12 + A.r02 * B.r22,
   A.r10 * B.r00 + A.r11 * B.r10 + A.r12 * B.r20,
   A.r10 * B.r01 + A.r11 * B.r11 + A.r12 * B.r21,
   A.r10 * B.r02 + A.r11 * B.r12 + A.r12 * B.r22,
   A.r20 * B.r00 + A.r21 * B.r10 + A.r22 * B.r20,
   A.r20 * B.r01 + A.r21 * B.r11 + A.r22 * B.r21,
   A.r20 * B.r02 + A.r21 * B.r12 + A.r22 * B.r22⟩

/-- Transpose (KDL `Rotation::Inverse` for an orthonormal rotation). -/
def KDLRotation.transpose (R : KDLRotation) : KDLRotation :=
  ⟨R.r00, R.r10, R.r20, R.r01, R.r11, R.r21, R.r02, R.r12, R.r22⟩

/-- Identity rotation. -/
def KDLRotation.one : KDLRotation := ⟨1, 0, 0, 0, 1, 0, 0, 0, 1⟩

/-- Scalar multiple of the identity. -/
def KDLRotation.scalarMat (c : ℚ) : KDLRotation := ⟨c, 0, 0, 0, c, 0, 0, 0, c⟩

/-- Determinant of the 3×3 matrix. -/
def KDLRotation.det (R : KDLRotation) : ℚ :=
  R.r00 * (R.r11 * R.r22 - R.r12 * R.r21)
    - R.r01 * (R.r10 * R.r22 - R.r12 * R.r20)
    + R.r02 * (R.r10 * R.r21 - R.r11 * R.r20)

/-- Adjugate (transposed cofactor matrix) of the 3×3 matrix. -/
def KDLRotation.adj (R : KDLRotation) : KDLRotation :=
  ⟨R.r11 * R.r22 - R.r12 * R.r21,
   -(R.r01 * R.r22 - R.r02 * R.r21),
   R.r01 * R.r12 - R.r02 * R.r11,
   -(R.r10 * R.r22 - R.r12 * R.r20),
   R.r00 * R.r22 - R.r02 * R.r20,
   -(R.r00 * R.r12 - R.r02 * R.r10),
   R.r10 * R.r21 - R.r11 * R.r20,
   -(R.r00 * R.r21 - R.r01 * R.r20),
   R.r00 * R.r11 - R.r01 * R.r10⟩

/-- Componentwise vector addition. -/
def KDLVector.add (a b : KDLVector) : KDLVector := ⟨a.x + b.x, a.y + b.y, a.z + b.z⟩

/-- Vector negation. -/
def KDLVector.neg (a : KDLVector) : KDLVector := ⟨-a.x, -a.y, -a.z⟩

/-- Cross product (KDL `Vector * Vector`). -/
def KDLVector.cross (a b : KDLVector) : KDLVector :=
  ⟨a.y * b.z - a.z * b.y, a.z * b.x - a.x * b.z, a.x * b.y - a.y * b.x⟩

/-- Zero vector. -/
def KDLVector.zero : KDLVector := ⟨0, 0, 0⟩

/-- KDL::Frame: rotation `M` plus translation `p`. -/
structure KDLFrame where
  M : KDLRotation
  p : KDLVector
deriving DecidableEq

/-- KDL `Frame::Inverse`: the inverse of `(R, p)` is `(Rᵀ, -Rᵀ·p)`. -/
def KDLFrame.inverse (F : KDLFrame) : KDLFrame :=
  ⟨F.M.transpose, (F.M.transpose.apply F.p).neg⟩

/-- KDL::Wrench: a force/torque pair. -/
structure KDLWrench where
  force : KDLVector
  torque : KDLVector
deriving DecidableEq

/-- KDL `Frame * Wrench`, the change of reference frame for a wrench:
`f' = R · f`, `t' = R · t + p × f'` (used at line 177 of the source,
`wrench_kdl = transform_kdl * wrench_kdl`). -/
def KDLFrame.mulWrench (F : KDLFrame) (w : KDLWrench) : KDLWrench :=
  let f := F.M.apply w.force
  ⟨f, (F.M.apply w.torque).add (F.p.cross f)⟩

/-- KDL `Wrench::operator()(i)`: coordinates 0–2 are the force, 3–5 the torque. -/
def KDLWrench.coord (w : KDLWrench) : ℕ → ℚ
  | 0 => w.force.x
  | 1 => w.force.y
  | 2 => w.force.z
  | 3 => w.torque.x
  | 4 => w.torque.y
  | 5 => w.torque.z
  | _ => 0

/-- The default-constructed `std::string` value that an unset member keeps
when `nh.getParam` fails. -/
def emptyStr : String := ""

/-! ### Controller data model

State of a `CartesianControllerBase<HardwareInterface>` instance.  The
`HardwareInterface` template argument (PositionJointInterface or
VelocityJointInterface) is embedded as the `ActuationMode` field: it is
fixed when the instance is built and no operation writes it. -/

/-- The hardware-interface template argument: position or velocity actuation. -/
inductive ActuationMode where
  | position
  | velocity
deriving DecidableEq

/-- A ros_control joint handle: real position/velocity readings plus the
command slot written by `setCommand`. -/
structure JointHandle where
  position : ℚ
  velocity : ℚ
  command : ℚ
deriving DecidableEq

/-- `JointHandle::setCommand`. -/
def JointHandle.setCommand (h : JointHandle) (c : ℚ) : JointHandle :=
  { h with command := c }

/-- The trajectory point returned by the forward-dynamics solver
(`m_simulated_joint_motion`): per-joint positions and velocities. -/
structure JointMotion where
  positions : List ℚ
  velocities : List ℚ
deriving DecidableEq

/-- Spatial PID controller axis state.  Modelled from the spec:
`SpatialPIDController` is declared in the non-included header
`cartesian_controller_base.h`; §4.1 gives per-axis gains and the
accumulated integral / previous-error state. -/
structure PidAxis where
  kp : ℚ
  ki : ℚ
  kd : ℚ
  integral : ℚ
  prevError : ℚ
deriving DecidableEq

/-- Modelled from the spec: one PID axis step of §4.1,
`integral += error*period` then
`output = Kp*error + Ki*integral + Kd*(error - prevError)/period`,
returning the output and the mutated axis state. -/
def PidAxis.step (a : PidAxis) (e period : ℚ) : ℚ × PidAxis :=
  let integral := a.integral + e * period
  (a.kp * e + a.ki * integral + a.kd * (e - a.prevError) / period,
   { a with integral := integral, prevError := e })

/-- `ctrl::Vector6D`: six coordinates, 3 linear + 3 angular. -/
structure Vector6D where
  c0 : ℚ
  c1 : ℚ
  c2 : ℚ
  c3 : ℚ
  c4 : ℚ
  c5 : ℚ
deriving DecidableEq

/-- Modelled from the spec: `SpatialPIDController` (§2, §4.1) is six
independent single-axis PID controllers, 3 linear + 3 angular. -/
structure SpatialPIDController where
  a0 : PidAxis
  a1 : PidAxis
  a2 : PidAxis
  a3 : PidAxis
  a4 : PidAxis
  a5 : PidAxis
deriving DecidableEq

/-- Modelled from the spec: `SpatialPIDController::operator()(error, period)`
(called at line 155, `m_spatial_controller(error, period)`) applies each
axis independently (§4.1, no cross-axis coupling) and returns the
Cartesian velocity together with the mutated controller. -/
def SpatialPIDController.call (c : SpatialPIDController) (e : Vector6D) (period : ℚ) :
    Vector6D × SpatialPIDController :=
  let s0 := c.a0.step e.c0 period
  let s1 := c.a1.step e.c1 period
  let s2 := c.a2.step e.c2 period
  let s3 := c.a3.step e.c3 period
  let s4 := c.a4.step e.c4 period
  let s5 := c.a5.step e.c5 period
  (⟨s0.1, s1.1, s2.1, s3.1, s4.1, s5.1⟩, ⟨s0.2, s1.2, s2.2, s3.2, s4.2, s5.2⟩)

/-- Modelled from the spec: `ForwardDynamicsSolver` (§4.2) keeps a
simulated joint state (positions and velocities per joint).  The damped
pseudo-inverse action `qdot = J⁺(q) · v` of the chain's Jacobian is kept
abstract as the oracle field `jacPinv`, a function of the current
simulated configuration and the Cartesian velocity command; its
numerical realization lives in the external solver implementation. -/
structure ForwardDynamicsSolver where
  simPositions : List ℚ
  simVelocities : List ℚ
  jacPinv : List ℚ → Vector6D → List ℚ

/-- Modelled from the spec: `setStartState` (§4.2) copies the real joint
positions and velocities from the hardware handles into the internal
simulated state. -/
def ForwardDynamicsSolver.setStartState (s : ForwardDynamicsSolver)
    (handles : List JointHandle) : ForwardDynamicsSolver :=
  { s with
    simPositions := handles.map JointHandle.position
    simVelocities := handles.map JointHandle.velocity }

/-- Modelled from the spec: `getJointControlCmds(period, v)` (§4.2)
computes `qdot = J⁺ · v` at the current simulated configuration,
integrates `position += qdot * period`, sets `velocity = qdot`, returns
the joint motion and updates the internal simulated state. -/
def ForwardDynamicsSolver.getJointControlCmds (s : ForwardDynamicsSolver)
    (period : ℚ) (v : Vector6D) : JointMotion × ForwardDynamicsSolver :=
  let qdot := s.jacPinv s.simPositions v
  let newPositions := List.zipWith (fun p qd => p + qd * period) s.simPositions qdot
  (⟨newPositions, qdot⟩,
   { s with simPositions := newPositions, simVelocities := qdot })

/-- Modelled from the spec: `getPositions` (§4.2) is the read accessor to
the current simulated joint positions (used at line 172). -/
def ForwardDynamicsSolver.getPositions (s : ForwardDynamicsSolver) : List ℚ :=
  s.simPositions

/-- State of a `CartesianControllerBase<HardwareInterface>` instance.  The
forward-kinematics solver (`KDL::TreeFkSolverPos_recursive::JntToCart`,
an external KDL component) is embedded as an oracle returning the frame
of a named segment at a joint configuration. -/
structure ControllerState where
  mode : ActuationMode
  m_robot_base_link : String
  m_end_effector_link : String
  m_joint_names : List String
  m_joint_handles : List JointHandle
  m_forward_dynamics_solver : ForwardDynamicsSolver
  m_forward_kinematics_solver : List ℚ → String → KDLFrame
  m_spatial_controller : SpatialPIDController
  m_cartesian_input : Vector6D
  m_simulated_joint_motion : JointMotion

/-! ### Per-cycle operations (lines 108–187 of the source) -/

/-- `starting(time)` (lines 108–114): copies the joint state to the
internal simulation via `setStartState(m_joint_handles)`; the body
contains nothing else. -/
def starting (s : ControllerState) : ControllerState :=
  { s with
    m_forward_dynamics_solver :=
      s.m_forward_dynamics_solver.setStartState s.m_joint_handles }

/-- `stopping(time)` (lines 116–120): empty body. -/
def stopping (s : ControllerState) : ControllerState := s

/-- `update(time, period)` (lines 122–126): the body is empty. -/
def update (s : ControllerState) (_period : ℚ) : ControllerState := s

/-- `computeJointControlCmds(error, period)` (lines 150–160):
`m_cartesian_input = m_spatial_controller(error, period)` then
`m_simulated_joint_motion = m_forward_dynamics_solver.getJointControlCmds(period, m_cartesian_input)`. -/
def computeJointControlCmds (s : ControllerState) (error : Vector6D) (period : ℚ) :
    ControllerState :=
  let pidStep := s.m_spatial_controller.call error period
  let fdStep := s.m_forward_dynamics_solver.getJointControlCmds period pidStep.1
  { s with
    m_spatial_controller := pidStep.2
    m_cartesian_input := pidStep.1
    m_forward_dynamics_solver := fdStep.2
    m_simulated_joint_motion := fdStep.1 }

/-- The loop `for i in [0, handles.size): handles[i].setCommand(vals[i])`
of `writeJointControlCmds` (lines 133–136 and 144–147).  The C++ indexes
`vals[i]` with no bounds check; the total embedding returns `none` on the
out-of-bounds branch. -/
def writeCmdsLoop : List JointHandle → List ℚ → Option (List JointHandle)
  | [], _ => some []
  | _ :: _, [] => none
  | h :: hs, v :: vs => (writeCmdsLoop hs vs).map (fun rest => h.setCommand v :: rest)

/-- `writeJointControlCmds` (lines 128–148): the template specialization
for `PositionJointInterface` writes `m_simulated_joint_motion.positions[i]`
to handle `i`, the one for `VelocityJointInterface` writes
`m_simulated_joint_motion.velocities[i]`; the instance's interface type
(here `mode`) selects which specialization exists. -/
def writeJointControlCmds (s : ControllerState) : Option ControllerState :=
  match s.mode with
  | ActuationMode.position =>
      (writeCmdsLoop s.m_joint_handles s.m_simulated_joint_motion.positions).map
        (fun hs => { s with m_joint_handles := hs })
  | ActuationMode.velocity =>
      (writeCmdsLoop s.m_joint_handles s.m_simulated_joint_motion.velocities).map
        (fun hs => { s with m_joint_handles := hs })

/-- The reassignment loop of lines 180–184: `out[i] = wrench_kdl(i)`. -/
def wrenchToVector6D (w : KDLWrench) : Vector6D :=
  ⟨w.coord 0, w.coord 1, w.coord 2, w.coord 3, w.coord 4, w.coord 5⟩

/-- `displayInBaseLink(wrench, from)` (lines 162–187): looks up the
transform of frame `from` by forward kinematics at
`m_forward_dynamics_solver.getPositions()`, multiplies the wrench by the
transform, and repacks the six coordinates. -/
def displayInBaseLink (s : ControllerState) (wrench : KDLWrench)
    (from_frame : String) : Vector6D :=
  let transform_kdl :=
    s.m_forward_kinematics_solver s.m_forward_dynamics_solver.getPositions from_frame
  let wrench_out := transform_kdl.mulWrench wrench
  wrenchToVector6D wrench_out

/-- Modelled from the spec: the per-cycle orchestration that §4.4 claims
`update(period)` performs while Running — take the externally supplied
Cartesian error, run `computeJointControlCmds` (PID then forward
dynamics), then dispatch to the actuation-mode-specific command writer. -/
def specUpdateCycle (s : ControllerState) (error : Vector6D) (period : ℚ) :
    Option ControllerState :=
  writeJointControlCmds (computeJointControlCmds s error period)

/-! ### Initialization (lines 35–106 of the source)

`init(hw, nh)` reads parameters, builds the kinematic chain, acquires
joint handles and initializes the solvers.  The external calls
(`nh.getParam`, `urdf::Model::initString`, `kdl_parser::treeFromUrdfModel`,
`KDL::Tree::getChain`) are embedded as oracle fields of an `InitEnv`.
`ROS_ERROR` output is collected in a log list, the C++ `throw` becomes
`Except.error`, and the side effects performed after the parameter /
chain checks (handle acquisition, solver setup) are recorded in an
effect trace. -/

/-- The `ROS_ERROR` messages `init` can emit, in source order. -/
inductive LogMsg where
  | errRobotDescription
  | errRobotBaseLink
  | errEndEffectorLink
  | errUrdfParse
  | errTreeParse
  | errChainParse
  | errJoints
deriving DecidableEq

/-- The three `throw std::runtime_error` sites of `init`. -/
inductive InitError where
  | treeParseFailed
  | chainParseFailed
  | jointsParamMissing
deriving DecidableEq

/-- Side effects `init` performs after its checks: joint-handle
acquisition (line 91) and solver / PID setup (lines 95–101). -/
inductive InitEffect where
  | getHandle (name : String)
  | forwardDynamicsSolverInit
  | forwardKinematicsSolverInit
  | spatialControllerInit
deriving DecidableEq

/-- Oracle view of the external world during `init`: parameter-server
contents (`none` = `nh.getParam` returns false and leaves the output
unchanged) and the results of the URDF/KDL parsing calls. -/
structure InitEnv where
  robot_description_param : Option String
  robot_base_link_param : Option String
  end_effector_link_param : Option String
  joints_param : Option (List String)
  initStringOk : String → Bool
  treeFromUrdfOk : Bool
  getChainOk : String → String → Bool

/-- What a successful `init` leaves in the controller members. -/
structure InitSuccess where
  m_robot_base_link : String
  m_end_effector_link : String
  m_joint_names : List String
deriving DecidableEq

/-- Result of running `init`: emitted error log, effect trace, and
either the thrown error or the member values (the C++ returns `true`
on the only path that reaches the end). -/
structure InitOutcome where
  log : List LogMsg
  effects : List InitEffect
  result : Except InitError InitSuccess

/-- `init(hw, nh)` (lines 35–106).  Mirrors the source control flow:
the three `getParam` failures for `/robot_description`,
`robot_base_link` and `end_effector_link` and the `initString` failure
only log (lines 45–62); `treeFromUrdfModel` failure (63–69),
`getChain` failure (70–77) and a missing `joints` parameter (80–86)
log and throw; afterwards handles are acquired (89–92) and solvers
initialized (95–101), and `init` returns true. -/
def init (env : InitEnv) : InitOutcome :=
  let robot_description := env.robot_description_param.getD emptyStr
  let log0 :=
    if env.robot_description_param.isNone then [LogMsg.errRobotDescription] else []
  let m_robot_base_link := env.robot_base_link_param.getD emptyStr
  let log1 := log0 ++
    (if env.robot_base_link_param.isNone then [LogMsg.errRobotBaseLink] else [])
  let m_end_effector_link := env.end_effector_link_param.getD emptyStr
  let log2 := log1 ++
    (if env.end_effector_link_param.isNone then [LogMsg.errEndEffectorLink] else [])
  let log3 := log2 ++
    (if env.initStringOk robot_description then [] else [LogMsg.errUrdfParse])
  if !env.treeFromUrdfOk then
    { log := log3 ++ [LogMsg.errTreeParse]
      effects := []
      result := Except.error InitError.treeParseFailed }
  else if !env.getChainOk m_robot_base_link m_end_effector_link then
    { log := log3 ++ [LogMsg.errChainParse]
      effects := []
      result := Except.error InitError.chainParseFailed }
  else
    match env.joints_param with
    | none =>
        { log := log3 ++ [LogMsg.errJoints]
          effects := []
          result := Except.error InitError.jointsParamMissing }
    | some m_joint_names =>
        { log := log3
          effects := m_joint_names.map InitEffect.getHandle ++
            [InitEffect.forwardDynamicsSolverInit,
             InitEffect.forwardKinematicsSolverInit,
             InitEffect.spatialControllerInit]
          result := Except.ok ⟨m_robot_base_link, m_end_effector_link, m_joint_names⟩ }

/-! ### Concrete example inputs

Used by the closed witness / counterexample theorems below. -/

/-- Rotation by 90° about the z axis (orthonormal, determinant 1). -/
def rotZ90 : KDLRotation := ⟨0, -1, 0, 1, 0, 0, 0, 0, 1⟩

/-- A sample wrench: force `(1,2,3)`, torque `(4,5,6)`. -/
def wrenchEx : KDLWrench := ⟨⟨1, 2, 3⟩, ⟨4, 5, 6⟩⟩

/-- A sample frame: `rotZ90` with translation `(1,2,3)`. -/
def frameEx : KDLFrame := ⟨rotZ90, ⟨1, 2, 3⟩⟩

/-- A PID axis with all gains and accumulators zero. -/
def zeroAxis : PidAxis := ⟨0, 0, 0, 0, 0⟩

/-- A spatial controller with all six axes zeroed. -/
def spatialZero : SpatialPIDController :=
  ⟨zeroAxis, zeroAxis, zeroAxis, zeroAxis, zeroAxis, zeroAxis⟩

/-- A spatial controller with pure proportional gain 1 on axis 0. -/
def spatialP1 : SpatialPIDController :=
  ⟨⟨1, 0, 0, 0, 0⟩, zeroAxis, zeroAxis, zeroAxis, zeroAxis, zeroAxis⟩

/-- The zero Cartesian vector. -/
def vec6zero : Vector6D := ⟨0, 0, 0, 0, 0, 0⟩

/-- Unit Cartesian error along the first linear axis. -/
def vec6e0 : Vector6D := ⟨1, 0, 0, 0, 0, 0⟩

/-- A forward-kinematics oracle returning the identity frame everywhere. -/
def fkIdentity : List ℚ → String → KDLFrame :=
  fun _ _ => ⟨KDLRotation.one, KDLVector.zero⟩

/-- Position-mode controller with one joint at rest, unit proportional gain
on axis 0, and a one-dimensional Jacobian pseudo-inverse picking the first
Cartesian coordinate. -/
def cs1 : ControllerState :=
  { mode := ActuationMode.position
    m_robot_base_link := emptyStr
    m_end_effector_link := emptyStr
    m_joint_names := [emptyStr]
    m_joint_handles := [⟨0, 0, 0⟩]
    m_forward_dynamics_solver := ⟨[0], [0], fun _ v => [v.c0]⟩
    m_forward_kinematics_solver := fkIdentity
    m_spatial_controller := spatialP1
    m_cartesian_input := vec6zero
    m_simulated_joint_motion := ⟨[0], [0]⟩ }

/-- Like `cs1`, but the forward-kinematics oracle returns `rotZ90` with
zero translation. -/
def sC7 : ControllerState :=
  { cs1 with m_forward_kinematics_solver := fun _ _ => ⟨rotZ90, KDLVector.zero⟩ }

/-- Position-mode controller with two joints and a simulated joint motion
holding three positions and two velocities. -/
def sPos : ControllerState :=
  { mode := ActuationMode.position
    m_robot_base_link := emptyStr
    m_end_effector_link := emptyStr
    m_joint_names := [emptyStr]
    m_joint_handles := [⟨1, 2, 0⟩, ⟨3, 4, 0⟩]
    m_forward_dynamics_solver := ⟨[1, 3], [2, 4], fun _ v => [v.c0, v.c1]⟩
    m_forward_kinematics_solver := fkIdentity
    m_spatial_controller := spatialZero
    m_cartesian_input := vec6zero
    m_simulated_joint_motion := ⟨[10, 20, 30], [7, 8]⟩ }

/-- `sPos` switched to the velocity-mode specialization. -/
def sVel : ControllerState := { sPos with mode := ActuationMode.velocity }

/-- Environment where the `robot_base_link` parameter is missing but every
external parsing call succeeds. -/
def envC2 : InitEnv :=
  { robot_description_param := some emptyStr
    robot_base_link_param := none
    end_effector_link_param := some emptyStr
    joints_param := some [emptyStr]
    initStringOk := fun _ => true
    treeFromUrdfOk := true
    getChainOk := fun _ _ => true }

/-- Environment where `kdl_parser::treeFromUrdfModel` fails. -/
def envTreeFail : InitEnv :=
  { envC2 with robot_base_link_param := some emptyStr, treeFromUrdfOk := false }

/-- Environment where `KDL::Tree::getChain` fails. -/
def envChainFail : InitEnv :=
  { envC2 with robot_base_link_param := some emptyStr, getChainOk := fun _ _ => false }

/-- Environment where both frame-name parameters are missing but the
parsing calls succeed. -/
def envC9w : InitEnv := { envC2 with end_effector_link_param := none }

/-! ### Helper lemmas: 3×3 matrix and cross-product algebra -/

theorem KDLVector.ext3 {a b : KDLVector} (hx : a.x = b.x) (hy : a.y = b.y)
    (hz : a.z = b.z) : a = b := by
  cases a; cases b; simp_all

theorem KDLRotation.ext9 {A B : KDLRotation}
    (h00 : A.r00 = B.r00) (h01 : A.r01 = B.r01) (h02 : A.r02 = B.r02)
    (h10 : A.r10 = B.r10) (h11 : A.r11 = B.r11) (h12 : A.r12 = B.r12)
    (h20 : A.r20 = B.r20) (h21 : A.r21 = B.r21) (h22 : A.r22 = B.r22) :
    A = B := by
  cases A; cases B; simp_all

theorem rot_apply_mul (A B : KDLRotation) (v : KDLVector) :
    (A.mul B).apply v = A.apply (B.apply v) := by
  refine KDLVector.ext3 ?_ ?_ ?_ <;>
    simp only [KDLRotation.mul, KDLRotation.apply] <;> ring

theorem rot_apply_one (v : KDLVector) : KDLRotation.one.apply v = v := by
  refine KDLVector.ext3 ?_ ?_ ?_ <;>
    simp [KDLRotation.one, KDLRotation.apply]

theorem rot_mul_one (A : KDLRotation) : A.mul KDLRotation.one = A := by
  refine KDLRotation.ext9 ?_ ?_ ?_ ?_ ?_ ?_ ?_ ?_ ?_ <;>
    simp [KDLRotation.mul, KDLRotation.one]

theorem rot_one_mul (A : KDLRotation) : KDLRotation.one.mul A = A := by
  refine KDLRotation.ext9 ?_ ?_ ?_ ?_ ?_ ?_ ?_ ?_ ?_ <;>
    simp [KDLRotation.mul, KDLRotation.one]

theorem rot_mul_assoc (A B C : KDLRotation) :
    (A.mul B).mul C = A.mul (B.mul C) := by
  refine KDLRotation.ext9 ?_ ?_ ?_ ?_ ?_ ?_ ?_ ?_ ?_ <;>
    simp only [KDLRotation.mul] <;> ring

theorem rot_mul_adj (A : KDLRotation) :
    A.mul A.adj = KDLRotation.scalarMat A.det := by
  refine KDLRotation.ext9 ?_ ?_ ?_ ?_ ?_ ?_ ?_ ?_ ?_ <;>
    simp only [KDLRotation.mul, KDLRotation.adj, KDLRotation.scalarMat,
      KDLRotation.det] <;> ring

theorem rot_adj_transpose (A : KDLRotation) :
    A.transpose.adj = A.adj.transpose := by
  refine KDLRotation.ext9 ?_ ?_ ?_ ?_ ?_ ?_ ?_ ?_ ?_ <;>
    simp only [KDLRotation.transpose, KDLRotation.adj] <;> ring

theorem rot_transpose_transpose (A : KDLRotation) :
    A.transpose.transpose = A := rfl

theorem scalarMat_one : KDLRotation.scalarMat 1 = KDLRotation.one := rfl

/-- The adjugate-transpose carries cross products through a linear map:
`(A·a) × (A·b) = adj(A)ᵀ · (a × b)` for any 3×3 matrix `A`. -/
theorem cross_adj (A : KDLRotation) (a b : KDLVector) :
    (A.apply a).cross (A.apply b) = A.adj.transpose.apply (a.cross b) := by
  refine KDLVector.ext3 ?_ ?_ ?_ <;>
    simp only [KDLRotation.apply, KDLRotation.adj, KDLRotation.transpose,
      KDLVector.cross] <;> ring

/-- For an orthonormal matrix of determinant 1, the transpose equals the
adjugate. -/
theorem transpose_eq_adj (A : KDLRotation)
    (h1 : A.transpose.mul A = KDLRotation.one) (h2 : A.det = 1) :
    A.transpose = A.adj := by
  have hA : A.mul A.adj = KDLRotation.one := by
    rw [rot_mul_adj, h2, scalarMat_one]
  calc A.transpose = A.transpose.mul KDLRotation.one := (rot_mul_one _).symm
    _ = A.transpose.mul (A.mul A.adj) := by rw [hA]
    _ = (A.transpose.mul A).mul A.adj := (rot_mul_assoc _ _ _).symm
    _ = KDLRotation.one.mul A.adj := by rw [h1]
    _ = A.adj := rot_one_mul _

/-- The transpose of a proper rotation carries cross products through. -/
theorem transpose_cross (A : KDLRotation)
    (h1 : A.transpose.mul A = KDLRotation.one) (h2 : A.det = 1)
    (a b : KDLVector) :
    (A.transpose.apply a).cross (A.transpose.apply b) =
      A.transpose.apply (a.cross b) := by
  rw [cross_adj, rot_adj_transpose, ← transpose_eq_adj A h1 h2,
    rot_transpose_transpose]

theorem rot_apply_add (R : KDLRotation) (a b : KDLVector) :
    R.apply (a.add b) = (R.apply a).add (R.apply b) := by
  refine KDLVector.ext3 ?_ ?_ ?_ <;>
    simp only [KDLRotation.apply, KDLVector.add] <;> ring

theorem cross_neg_left (a b : KDLVector) :
    a.neg.cross b = (a.cross b).neg := by
  refine KDLVector.ext3 ?_ ?_ ?_ <;>
    simp only [KDLVector.neg, KDLVector.cross] <;> ring

theorem add_add_neg (a b : KDLVector) : (a.add b).add b.neg = a := by
  refine KDLVector.ext3 ?_ ?_ ?_ <;>
    simp only [KDLVector.add, KDLVector.neg] <;> ring

theorem zero_cross (v : KDLVector) : KDLVector.zero.cross v = KDLVector.zero := by
  refine KDLVector.ext3 ?_ ?_ ?_ <;>
    simp [KDLVector.zero, KDLVector.cross]

theorem vec_add_zero (a : KDLVector) : a.add KDLVector.zero = a := by
  refine KDLVector.ext3 ?_ ?_ ?_ <;>
    simp [KDLVector.zero, KDLVector.add]

/-- The command-writing loop succeeds and pairs handle `i` with value `i`
whenever the value vector is at least as long as the handle list. -/
theorem writeCmdsLoop_eq_zipWith (handles : List JointHandle) (vals : List ℚ)
    (h : handles.length ≤ vals.length) :
    writeCmdsLoop handles vals =
      some (List.zipWith JointHandle.setCommand handles vals) := by
  induction handles generalizing vals with
  | nil => simp [writeCmdsLoop]
  | cons hd tl ih =>
    cases vals with
    | nil => simp at h
    | cons v vs =>
      simp only [writeCmdsLoop, List.zipWith, ih vs (by simpa using h),
        Option.map_some']

/-! ### Claim theorems -/

/-- Claim C5: on every activation, `starting()` synchronizes the
forward-dynamics solver's simulated joint state from the real hardware
joint handles via `setStartState` (simulated positions and velocities
become the handles' readings) and performs no other computation and no
other state mutation: every other field of the controller state, and the
solver's pseudo-inverse oracle, are unchanged. -/
theorem starting_syncs_and_mutates_nothing_else (s : ControllerState) :
    starting s =
      { s with m_forward_dynamics_solver :=
          s.m_forward_dynamics_solver.setStartState s.m_joint_handles }
    ∧ (starting s).m_forward_dynamics_solver.simPositions =
        s.m_joint_handles.map JointHandle.position
    ∧ (starting s).m_forward_dynamics_solver.simVelocities =
        s.m_joint_handles.map JointHandle.velocity
    ∧ (starting s).m_forward_dynamics_solver.jacPinv =
        s.m_forward_dynamics_solver.jacPinv
    ∧ (starting s).mode = s.mode
    ∧ (starting s).m_robot_base_link = s.m_robot_base_link
    ∧ (starting s).m_end_effector_link = s.m_end_effector_link
    ∧ (starting s).m_joint_names = s.m_joint_names
    ∧ (starting s).m_joint_handles = s.m_joint_handles
    ∧ (starting s).m_forward_kinematics_solver = s.m_forward_kinematics_solver
    ∧ (starting s).m_spatial_controller = s.m_spatial_controller
    ∧ (starting s).m_cartesian_input = s.m_cartesian_input
    ∧ (starting s).m_simulated_joint_motion = s.m_simulated_joint_motion :=
  ⟨rfl, rfl, rfl, rfl, rfl, rfl, rfl, rfl, rfl, rfl, rfl, rfl, rfl⟩

/-- Claim C6: `displayInBaseLink` computes the change-of-frame transform
from the forward-dynamics solver's current simulated joint positions
(`getPositions`), never from the real hardware joint state: its result is
invariant under any replacement of the joint handles, and equals the
forward-kinematics transform evaluated at `getPositions` applied to the
wrench. -/
theorem displayInBaseLink_uses_simulated_positions (s : ControllerState)
    (w : KDLWrench) (from_frame : String) (hs : List JointHandle) :
    displayInBaseLink { s with m_joint_handles := hs } w from_frame =
      displayInBaseLink s w from_frame
    ∧ displayInBaseLink s w from_frame =
        wrenchToVector6D ((s.m_forward_kinematics_solver
          s.m_forward_dynamics_solver.getPositions from_frame).mulWrench w) :=
  ⟨rfl, rfl⟩

/-- Claim C7: for a wrench `(f, t)` and the looked-up transform `(R, p)`,
`displayInBaseLink` returns `(f', t')` with `f' = R·f` and
`t' = R·t + p × f'`; and whenever the transform has zero translation the
returned torque is exactly `R·t`. -/
theorem displayInBaseLink_wrench_transform_law (s : ControllerState)
    (w : KDLWrench) (from_frame : String) :
    (displayInBaseLink s w from_frame =
      (let T := s.m_forward_kinematics_solver
        s.m_forward_dynamics_solver.getPositions from_frame
       let fp := T.M.apply w.force
       let tp := (T.M.apply w.torque).add (T.p.cross fp)
       ⟨fp.x, fp.y, fp.z, tp.x, tp.y, tp.z⟩))
    ∧ ((s.m_forward_kinematics_solver
          s.m_forward_dynamics_solver.getPositions from_frame).p = KDLVector.zero →
        ((s.m_forward_kinematics_solver
          s.m_forward_dynamics_solver.getPositions from_frame).mulWrench w).torque =
          (s.m_forward_kinematics_solver
            s.m_forward_dynamics_solver.getPositions from_frame).M.apply w.torque) := by
  constructor
  · rfl
  · intro h
    simp [KDLFrame.mulWrench, h, zero_cross, vec_add_zero]

/-- Claim C7 witness: at a controller whose forward kinematics returns
`rotZ90` with zero translation, the wrench `((1,2,3),(4,5,6))` is mapped
to `((-2,1,3),(-5,4,6))` and the torque is the pure rotation of `(4,5,6)`. -/
theorem displayInBaseLink_wrench_transform_law_witness :
    displayInBaseLink sC7 wrenchEx emptyStr = ⟨-2, 1, 3, -5, 4, 6⟩
    ∧ ((sC7.m_forward_kinematics_solver
        sC7.m_forward_dynamics_solver.getPositions emptyStr).mulWrench wrenchEx).torque =
        ⟨-5, 4, 6⟩ := by
  have h := displayInBaseLink_wrench_transform_law sC7 wrenchEx emptyStr
  constructor
  · refine h.1.trans ?_
    norm_num [sC7, cs1, rotZ90, wrenchEx, KDLRotation.apply, KDLVector.add,
      KDLVector.cross, KDLVector.zero, ForwardDynamicsSolver.getPositions]
  · refine (h.2 rfl).trans ?_
    norm_num [sC7, cs1, rotZ90, wrenchEx, KDLRotation.apply]

/-- Claim C8: the wrench change-of-frame round-trips exactly: for every
wrench and every frame whose rotation part is orthonormal with
determinant 1 (a proper rotation), applying the transform and then the
inverse transform reproduces the original wrench. -/
theorem wrench_transform_round_trip (F : KDLFrame) (w : KDLWrench)
    (h1 : F.M.transpose.mul F.M = KDLRotation.one) (h2 : F.M.det = 1) :
    F.inverse.mulWrench (F.mulWrench w) = w := by
  obtain ⟨R, p⟩ := F
  obtain ⟨f, t⟩ := w
  simp only at h1 h2
  have hRtR : ∀ v, R.transpose.apply (R.apply v) = v := fun v => by
    rw [← rot_apply_mul, h1, rot_apply_one]
  have hcross : R.transpose.apply (p.cross (R.apply f)) =
      (R.transpose.apply p).cross f := by
    have h := transpose_cross R h1 h2 p (R.apply f)
    rw [hRtR f] at h
    exact h.symm
  have hforce : R.transpose.apply (R.apply f) = f := hRtR f
  have htorque :
      (R.transpose.apply ((R.apply t).add (p.cross (R.apply f)))).add
        (((R.transpose.apply p).neg).cross (R.transpose.apply (R.apply f))) = t := by
    rw [rot_apply_add, hRtR t, hcross, hRtR f, cross_neg_left, add_add_neg]
  simp only [KDLFrame.inverse, KDLFrame.mulWrench]
  exact congrArg₂ KDLWrench.mk hforce htorque

/-- Claim C8 witness: the round trip evaluated at the concrete proper
rotation `rotZ90` with translation `(1,2,3)` and wrench `((1,2,3),(4,5,6))`. -/
theorem wrench_transform_round_trip_witness :
    frameEx.M.transpose.mul frameEx.M = KDLRotation.one
    ∧ frameEx.M.det = 1
    ∧ frameEx.inverse.mulWrench (frameEx.mulWrench wrenchEx) = wrenchEx := by
  have h1 : frameEx.M.transpose.mul frameEx.M = KDLRotation.one := by
    norm_num [frameEx, rotZ90, KDLRotation.transpose, KDLRotation.mul,
      KDLRotation.one]
  have h2 : frameEx.M.det = 1 := by
    norm_num [frameEx, rotZ90, KDLRotation.det]
  exact ⟨h1, h2, wrench_transform_round_trip frameEx wrenchEx h1 h2⟩

/-- Claim C4: the command writer is selected by the actuation mode fixed
in the instance: in position mode `writeJointControlCmds` writes
`m_simulated_joint_motion.positions[i]` to joint handle `i` for every `i`,
in velocity mode it writes `m_simulated_joint_motion.velocities[i]`; and
no operation of the controller changes the mode, so the active writer is
not switchable at runtime. -/
theorem writeJointControlCmds_mode_dispatch (s : ControllerState)
    (hp : s.m_joint_handles.length ≤ s.m_simulated_joint_motion.positions.length)
    (hv : s.m_joint_handles.length ≤ s.m_simulated_joint_motion.velocities.length) :
    (s.mode = ActuationMode.position →
      writeJointControlCmds s = some
        { s with m_joint_handles :=
            (List.zipWith JointHandle.setCommand s.m_joint_handles
              s.m_simulated_joint_motion.positions) })
    ∧ (s.mode = ActuationMode.velocity →
      writeJointControlCmds s = some
        { s with m_joint_handles :=
            (List.zipWith JointHandle.setCommand s.m_joint_handles
              s.m_simulated_joint_motion.velocities) })
    ∧ (∀ p, (update s p).mode = s.mode)
    ∧ (starting s).mode = s.mode
    ∧ (stopping s).mode = s.mode
    ∧ (∀ e p, (computeJointControlCmds s e p).mode = s.mode)
    ∧ (∀ s2, writeJointControlCmds s = some s2 → s2.mode = s.mode) := by
  refine ⟨?_, ?_, fun _ => rfl, rfl, rfl, fun _ _ => rfl, ?_⟩
  · intro hm
    simp [writeJointControlCmds, hm, writeCmdsLoop_eq_zipWith _ _ hp]
  · intro hm
    simp [writeJointControlCmds, hm, writeCmdsLoop_eq_zipWith _ _ hv]
  · intro s2 h
    cases hm : s.mode <;> rw [writeJointControlCmds, hm] at h <;>
      simp only [Option.map_eq_some'] at h <;>
      obtain ⟨a, _, h2⟩ := h <;> rw [← h2]

/-- Claim C4 witness: the position-mode instance `sPos` with handles
`[(1,2,0),(3,4,0)]` and simulated positions `[10,20,30]` writes commands
10 and 20. -/
theorem writeJointControlCmds_mode_dispatch_witness :
    writeJointControlCmds sPos =
      some { sPos with m_joint_handles := [⟨1, 2, 10⟩, ⟨3, 4, 20⟩] } := by
  have hp : sPos.m_joint_handles.length ≤
      sPos.m_simulated_joint_motion.positions.length := by
    norm_num [sPos]
  have hv : sPos.m_joint_handles.length ≤
      sPos.m_simulated_joint_motion.velocities.length := by
    norm_num [sPos]
  have h := (writeJointControlCmds_mode_dispatch sPos hp hv).1 rfl
  rw [h]
  norm_num [sPos, JointHandle.setCommand]

/-- Claim C10: under the precondition that the simulated joint motion's
positions and velocities vectors have at least as many entries as there
are joint handles, `writeJointControlCmds` never takes the out-of-bounds
branch of the total embedding (the result is `some`), and it reads but
never modifies the simulated joint motion or the solver's simulated
state; the handle count is preserved. -/
theorem writeJointControlCmds_in_bounds (s : ControllerState)
    (h : s.m_joint_handles.length ≤ s.m_simulated_joint_motion.positions.length
      ∧ s.m_joint_handles.length ≤ s.m_simulated_joint_motion.velocities.length) :
    (writeJointControlCmds s).isSome = true
    ∧ ∀ s2, writeJointControlCmds s = some s2 →
        s2.m_simulated_joint_motion = s.m_simulated_joint_motion
        ∧ s2.m_joint_handles.length = s.m_joint_handles.length
        ∧ s2.m_forward_dynamics_solver.simPositions =
            s.m_forward_dynamics_solver.simPositions
        ∧ s2.m_forward_dynamics_solver.simVelocities =
            s.m_forward_dynamics_solver.simVelocities := by
  constructor
  · cases hm : s.mode
    · rw [writeJointControlCmds, hm]
      simp [writeCmdsLoop_eq_zipWith _ _ h.1]
    · rw [writeJointControlCmds, hm]
      simp [writeCmdsLoop_eq_zipWith _ _ h.2]
  · intro s2 hs2
    cases hm : s.mode <;> rw [writeJointControlCmds, hm] at hs2 <;>
      simp only [writeCmdsLoop_eq_zipWith _ _ h.1,
        writeCmdsLoop_eq_zipWith _ _ h.2, Option.map_some',
        Option.some.injEq] at hs2 <;>
      rw [← hs2] <;>
      refine ⟨rfl, ?_, rfl, rfl⟩ <;>
      simp [List.length_zipWith, Nat.min_eq_left h.1, Nat.min_eq_left h.2]

/-- Claim C10 witness: at the velocity-mode instance `sVel` the writer
succeeds and leaves the simulated joint motion untouched. -/
theorem writeJointControlCmds_in_bounds_witness :
    (writeJointControlCmds sVel).isSome = true := by
  exact (writeJointControlCmds_in_bounds sVel
    ⟨by norm_num [sVel, sPos], by norm_num [sVel, sPos]⟩).1

/-- Claim C1 counterexample: `update` has an empty body.  At the concrete
Running-state `cs1` with unit Cartesian error, `update` leaves the state
(and in particular the joint command, 0) unchanged, while the per-cycle
orchestration the claim describes (PID → forward dynamics → mode-specific
command writer) would set the joint command to 1. -/
theorem update_does_not_orchestrate :
    update cs1 1 = cs1
    ∧ Option.map ControllerState.m_joint_handles (specUpdateCycle cs1 vec6e0 1) =
        some [⟨0, 0, 1⟩]
    ∧ cs1.m_joint_handles = [⟨0, 0, 0⟩] := by
  refine ⟨rfl, ?_, rfl⟩
  norm_num [specUpdateCycle, writeJointControlCmds, computeJointControlCmds,
    SpatialPIDController.call, PidAxis.step,
    ForwardDynamicsSolver.getJointControlCmds, writeCmdsLoop,
    JointHandle.setCommand, cs1, spatialP1, zeroAxis, vec6e0, fkIdentity]

/-- Claim C1 (amended): `update(time, period)` has an empty body and
performs no computation and no state change; the per-cycle computation
the specification describes is instead provided by
`computeJointControlCmds` (spatial PID producing `m_cartesian_input`,
then the forward-dynamics solver producing `m_simulated_joint_motion`)
and by the actuation-mode-specific `writeJointControlCmds`, neither of
which `update` invokes. -/
theorem update_is_empty_pipeline_is_separate (s : ControllerState)
    (e : Vector6D) (p : ℚ) :
    update s p = s
    ∧ computeJointControlCmds s e p =
        { s with
          m_spatial_controller := (s.m_spatial_controller.call e p).2
          m_cartesian_input := (s.m_spatial_controller.call e p).1
          m_forward_dynamics_solver :=
            (s.m_forward_dynamics_solver.getJointControlCmds p
              (s.m_spatial_controller.call e p).1).2
          m_simulated_joint_motion :=
            (s.m_forward_dynamics_solver.getJointControlCmds p
              (s.m_spatial_controller.call e p).1).1 } :=
  ⟨rfl, rfl⟩

/-- Claim C2 counterexample: with the `robot_base_link` parameter missing
(and every external parsing call succeeding), `init` logs an error but
still reports success — missing configuration values do not by themselves
abort initialization. -/
theorem init_reports_success_after_missing_frame_param :
    envC2.robot_base_link_param = none
    ∧ LogMsg.errRobotBaseLink ∈ (init envC2).log
    ∧ (init envC2).result = Except.ok ⟨emptyStr, emptyStr, [emptyStr]⟩ := by
  refine ⟨rfl, ?_, ?_⟩ <;> simp [init, envC2]

/-- Claim C2 (amended): `init` aborts (throws) exactly when the KDL tree
cannot be parsed, the chain between the configured base and end-effector
names cannot be resolved, or the `joints` parameter is missing; failures
to read `/robot_description`, `robot_base_link` or `end_effector_link`
(and a failed URDF parse) are logged but never abort on their own, and
after them `init` can still report success. -/
theorem init_abort_characterization (env : InitEnv) :
    (∃ e, (init env).result = Except.error e) ↔
      (env.treeFromUrdfOk = false
       ∨ env.getChainOk (env.robot_base_link_param.getD emptyStr)
           (env.end_effector_link_param.getD emptyStr) = false
       ∨ env.joints_param = none) := by
  cases ht : env.treeFromUrdfOk
  · simp [init, ht]
  · cases hc : env.getChainOk (env.robot_base_link_param.getD emptyStr)
        (env.end_effector_link_param.getD emptyStr)
    · simp [init, ht, hc]
    · cases hj : env.joints_param <;> simp [init, ht, hc, hj]

/-- Claim C2 (amended) witness: a failed KDL tree parse makes `init`
throw. -/
theorem init_abort_characterization_witness :
    ∃ e, (init envTreeFail).result = Except.error e :=
  (init_abort_characterization envTreeFail).mpr (Or.inl rfl)

/-- Claim C3: if the named base and end-effector frames cannot be
resolved into a connected chain, or the `joints` list is missing, `init`
throws and performs none of the subsequent side effects — no
hardware-handle acquisition and no solver setup. -/
theorem init_chain_or_joints_failure_aborts (env : InitEnv)
    (h : env.getChainOk (env.robot_base_link_param.getD emptyStr)
          (env.end_effector_link_param.getD emptyStr) = false
        ∨ env.joints_param = none) :
    (∃ e, (init env).result = Except.error e) ∧ (init env).effects = [] := by
  cases ht : env.treeFromUrdfOk
  · exact ⟨⟨InitError.treeParseFailed, by simp [init, ht]⟩, by simp [init, ht]⟩
  · cases hc : env.getChainOk (env.robot_base_link_param.getD emptyStr)
        (env.end_effector_link_param.getD emptyStr)
    · exact ⟨⟨InitError.chainParseFailed, by simp [init, ht, hc]⟩,
        by simp [init, ht, hc]⟩
    · rcases h with h | h
      · rw [hc] at h; exact absurd h (by simp)
      · exact ⟨⟨InitError.jointsParamMissing, by simp [init, ht, hc, h]⟩,
          by simp [init, ht, hc, h]⟩

/-- Claim C3 witness: an environment whose chain resolution fails makes
`init` throw with an empty effect trace. -/
theorem init_chain_or_joints_failure_aborts_witness :
    (∃ e, (init envChainFail).result = Except.error e)
    ∧ (init envChainFail).effects = [] :=
  init_chain_or_joints_failure_aborts envChainFail (Or.inl rfl)

/-- Claim C9: when the optional frame-name parameters (`robot_base_link`,
`end_effector_link`) are missing, `init` logs the corresponding errors
but does not throw at that point: whether it throws is decided solely by
the later tree-parse, chain-resolution and joint-list steps, so
initialization continues best-effort. -/
theorem frame_name_params_logged_not_fatal (env : InitEnv)
    (hb : env.robot_base_link_param = none)
    (he : env.end_effector_link_param = none) :
    LogMsg.errRobotBaseLink ∈ (init env).log
    ∧ LogMsg.errEndEffectorLink ∈ (init env).log
    ∧ ((∃ e, (init env).result = Except.error e) ↔
        (env.treeFromUrdfOk = false
         ∨ env.getChainOk emptyStr emptyStr = false
         ∨ env.joints_param = none)) := by
  cases ht : env.treeFromUrdfOk
  · simp [init, ht, hb, he]
  · cases hc : env.getChainOk emptyStr emptyStr
    · simp [init, ht, hb, he, hc]
    · cases hj : env.joints_param <;> simp [init, ht, hb, he, hc, hj]

/-- Claim C9 witness: with both frame-name parameters missing and all
parsing calls succeeding, the two errors are logged and `init` does not
throw. -/
theorem frame_name_params_logged_not_fatal_witness :
    LogMsg.errRobotBaseLink ∈ (init envC9w).log
    ∧ LogMsg.errEndEffectorLink ∈ (init envC9w).log
    ∧ ((∃ e, (init envC9w).result = Except.error e) ↔
        (envC9w.treeFromUrdfOk = false
         ∨ envC9w.getChainOk emptyStr emptyStr = false
         ∨ envC9w.joints_param = none)) :=
  frame_name_params_logged_not_fatal envC9w rfl rfl

end cartesian_controller_base
